import Mathlib

/-!
Verification of the content-resolution, timeline-building, composition-planning
and render-supervision core of `mlconf-dlp` (files `mlconf-dlp.py` and
`yt_dlp_slides.py`).

The Python code is shallowly embedded:
* `float` time values become `ℚ` (the code only adds, subtracts and compares
  chapter timestamps and the constant `0.1`);
* the filesystem is a list of file names present in the input directory,
  `Path.exists` becomes list membership, and `Path.glob` over the pattern
  `*Slide <id>*.mp4` becomes the corresponding decidable name predicate;
* `re.search` over the two patterns used by the code (`Slide\s+(\d+)` and
  `time=(\d+):(\d+):(\d+\.\d+)`) is implemented directly as a leftmost-match
  scanner over the character list (the character classes are the ASCII
  portions of `\s` / `\d`, which is what the SlidesLive inputs contain);
* `raise ValidationError(msg)` becomes `Except.error msg`;
* the Python `dict` is an association list consulted only through lookup of
  the most recently inserted binding for a key.
-/

namespace MlconfDlp

/-- ASCII whitespace, the characters matched by the regex class `\s`
on the inputs in scope. -/
def isPySpace (c : Char) : Bool :=
  c == ' ' || c == '\t' || c == '\n' || c == '\r' || c == '\x0b' || c == '\x0c'

/-- ASCII decimal digit, the characters matched by the regex class `\d`
on the inputs in scope. -/
def isPyDigit (c : Char) : Bool :=
  '0' ≤ c && c ≤ '9'

/-- Does `pat` occur at the very beginning of `s`? -/
def matchStart : List Char → List Char → Bool
  | [], _ => true
  | _ :: _, [] => false
  | p :: ps, c :: cs => p == c && matchStart ps cs

/-- Does `pat` occur as a contiguous substring of `s`? -/
def occursIn (pat : List Char) : List Char → Bool
  | [] => matchStart pat []
  | c :: cs => matchStart pat (c :: cs) || occursIn pat cs

/-- Attempt to match the regex `Slide\s+(\d+)` at the head of the character
list, returning the digits captured by group 1.  Since `\s` and `\d` are
disjoint character classes the greedy `takeWhile` needs no backtracking. -/
def matchSlideAt : List Char → Option (List Char)
  | 'S' :: 'l' :: 'i' :: 'd' :: 'e' :: rest =>
    let sp := rest.takeWhile isPySpace
    if sp.isEmpty then none
    else
      let ds := (rest.dropWhile isPySpace).takeWhile isPyDigit
      if ds.isEmpty then none else some ds
  | _ => none

/-- Leftmost match of `Slide\s+(\d+)`, as performed by `re.search`. -/
def searchSlide : List Char → Option (List Char)
  | [] => none
  | c :: cs =>
    match matchSlideAt (c :: cs) with
    | some ds => some ds
    | none => searchSlide cs

/-- `re.search(r"Slide\s+(\d+)", title)` followed by `match.group(1)`:
the slide id embedded in a chapter title, kept as a string so that leading
zeros survive (e.g. `"Slide 006"` yields `"006"`). -/
def extractSlideId (s : String) : Option String :=
  (searchSlide s.data).map fun ds => String.mk ds

/-- The last `/`-separated component of a path, as `pathlib.Path(...).name`. -/
def lastSlashComponent (s : List Char) : List Char :=
  (s.reverse.takeWhile (fun c => c ≠ '/')).reverse

/-- `Path(url).suffix.lstrip(".")`: the extension of the final path component.
`pathlib` yields a suffix only when the final dot is neither the first nor the
last character of the component; `lstrip(".")` then removes the leading dot. -/
def pathExtChars (s : List Char) : List Char :=
  let nm := lastSlashComponent s
  let afterDot := nm.reverse.takeWhile (fun c => c ≠ '.')
  if afterDot.length = nm.length then []
  else if afterDot.length = 0 then []
  else if nm.length - afterDot.length - 1 = 0 then []
  else afterDot.reverse

/-- Extension declared by a thumbnail `url` (string form of `pathExtChars`). -/
def pathExt (url : String) : String :=
  String.mk (pathExtChars url.data)

/-- Kind tag of a resolved slide asset (the `"image"` / `"video"` strings of
the Python tuples). -/
inductive SlideKind where
  | image
  | video
deriving DecidableEq

/-- A resolved on-disk slide artifact: file name plus kind tag. -/
structure SlideAsset where
  path : String
  kind : SlideKind
deriving DecidableEq

/-- One chapter of the metadata.  `title` is optional because the Python code
reads it with `chapter.get("title", default)`. -/
structure Chapter where
  start_time : ℚ
  end_time : ℚ
  title : Option String
deriving DecidableEq

/-- One thumbnail entry of the metadata. -/
structure Thumbnail where
  id : String
  url : String
deriving DecidableEq

/-- The slide-id → asset dictionary.  New bindings are consed on the front, so
looking up the first hit matches Python-dict lookup of the latest binding. -/
abbrev SlideMap := List (String × SlideAsset)

/-- Dictionary lookup: `slide_mapping[slide_id]` (and the membership test
`slide_id in slide_mapping`). -/
def lookupSlide (m : SlideMap) (sid : String) : Option SlideAsset :=
  (m.find? fun p => p.1 == sid).map fun p => p.2

/-- The image-slide file name `f"{video_name}.{slide_id}.{ext}"`. -/
def imageFileName (videoName sid ext : String) : String :=
  videoName ++ "." ++ sid ++ "." ++ ext

/-- The `for alt_ext in ["png", "jpg", "jpeg", "webp"]` fallback loop of
`ContentValidator.validate_slide_files`, with its early `break`. -/
def resolveImageAlts (files : List String) (videoName sid : String) :
    List String → Option String
  | [] => none
  | e :: es =>
    let p := imageFileName videoName sid e
    if files.contains p then some p else resolveImageAlts files videoName sid es

/-- Image-slide resolution for one slide id: first the file named with the
extension declared by the thumbnail url, then the fixed fallback list. -/
def resolveImage (files : List String) (videoName sid ext : String) :
    Option String :=
  let p := imageFileName videoName sid ext
  if files.contains p then some p
  else resolveImageAlts files videoName sid ["png", "jpg", "jpeg", "webp"]

/-- The glob `*Slide {slide_id}*.mp4`: the name ends in `.mp4` and the part
before that suffix contains `Slide <id>`.  (`*` may match the empty string,
and `"Slide <id>"` contains no dot, so this is exactly the glob.) -/
def slideVideoGlob (sid name : String) : Bool :=
  let cs := name.data
  matchStart (".mp4".data.reverse) cs.reverse
    && occursIn (("Slide " ++ sid).data) (cs.take (cs.length - 4))

/-- Mutable state of the `validate_slide_files` loop: the dictionary under
construction and the three reporting counters. -/
structure ResolveState where
  mapping : SlideMap
  imageCount : ℕ
  videoCount : ℕ
  skippedCount : ℕ
deriving DecidableEq

/-- One iteration of the chapter loop of
`ContentValidator.validate_slide_files`: extract the slide id from the title
(default `""`); no id → count the chapter skipped; id declared as a thumbnail
→ resolve an image with extension fallback or fail with the
`Slide file not found` (MissingSlideAsset) error; id not declared → take the
first `*Slide <id>*.mp4` glob hit or count the chapter skipped. -/
def slideStep (files : List String) (videoName : String)
    (thumbs : List Thumbnail) (st : ResolveState) (c : Chapter) :
    Except String ResolveState :=
  match extractSlideId (c.title.getD "") with
  | none => .ok { st with skippedCount := st.skippedCount + 1 }
  | some sid =>
    if thumbs.any fun t => t.id == sid then
      match thumbs.find? fun t => t.id == sid with
      | some t =>
        let ext := pathExt t.url
        match resolveImage files videoName sid ext with
        | some p =>
          .ok { st with
                mapping := (sid, ⟨p, SlideKind.image⟩) :: st.mapping,
                imageCount := st.imageCount + 1 }
        | none =>
          .error ("Slide file not found for thumbnail " ++ sid
            ++ ". Expected: " ++ videoName ++ "." ++ sid ++ "." ++ ext)
      | none => .ok st
    else
      match files.find? fun nm => slideVideoGlob sid nm with
      | some v =>
        .ok { st with
              mapping := (sid, ⟨v, SlideKind.video⟩) :: st.mapping,
              videoCount := st.videoCount + 1 }
      | none => .ok { st with skippedCount := st.skippedCount + 1 }

/-- The chapter loop of `validate_slide_files`: chapters processed in list
order, the first raised error aborting the whole traversal. -/
def slideLoop (files : List String) (videoName : String)
    (thumbs : List Thumbnail) : ResolveState → List Chapter →
    Except String ResolveState
  | st, [] => .ok st
  | st, c :: cs =>
    match slideStep files videoName thumbs st c with
    | .ok st2 => slideLoop files videoName thumbs st2 cs
    | .error e => .error e

/-- `ContentValidator.validate_slide_files`: returns the slide mapping and the
`(image_count, video_count, skipped_count)` reporting counters. -/
def validateSlideFiles (files : List String) (chapters : List Chapter)
    (thumbs : List Thumbnail) (videoName : String) :
    Except String ResolveState :=
  slideLoop files videoName thumbs ⟨[], 0, 0, 0⟩ chapters

/-- One timeline entry `(start_time, end_time, slide_path, slide_type)`. -/
structure Segment where
  start : ℚ
  stop : ℚ
  path : String
  kind : SlideKind
deriving DecidableEq

/-- The body of one iteration of `SlideMapper.build_slide_timeline`'s chapter
loop: clamp a duration below `0.1` to exactly `0.1` (keeping the start), then
emit a segment when the title (default `"Chapter {i+1}"`) parses to a slide id
present in the mapping, and nothing otherwise. -/
def segOfChapter (m : SlideMap) (i : ℕ) (c : Chapter) : Option Segment :=
  let s := c.start_time
  let e := if c.end_time - s < 1 / 10 then s + 1 / 10 else c.end_time
  match extractSlideId (c.title.getD ("Chapter " ++ toString (i + 1))) with
  | none => none
  | some sid =>
    match lookupSlide m sid with
    | none => none
    | some a => some ⟨s, e, a.path, a.kind⟩

/-- The chapter loop of `build_slide_timeline`, appending segments in chapter
order (`i` is the running chapter index, used only for the title default). -/
def buildLoop (m : SlideMap) : ℕ → List Chapter → List Segment
  | _, [] => []
  | i, c :: cs =>
    match segOfChapter m i c with
    | some sg => sg :: buildLoop m (i + 1) cs
    | none => buildLoop m (i + 1) cs

/-- `SlideMapper.build_slide_timeline`: the segment list in chapter order,
or the `No chapters found to create timeline` (EmptyTimeline) error when no
chapter contributed a segment. -/
def buildSlideTimeline (chapters : List Chapter) (m : SlideMap) :
    Except String (List Segment) :=
  let tl := buildLoop m 0 chapters
  if tl.isEmpty then .error "No chapters found to create timeline" else .ok tl

/-- `total_duration = timeline[-1][1] if timeline else 0`: the composition's
overall duration is the end time of the last segment. -/
def totalDuration (tl : List Segment) : ℚ :=
  match tl.getLast? with
  | some sg => sg.stop
  | none => 0

/-- Python `int(...)` applied to a rational: truncation toward zero. -/
def pyInt (q : ℚ) : ℤ :=
  if 0 ≤ q then ⌊q⌋ else -⌊-q⌋

/-- Width and height reported by `ffprobe` for a media file. -/
structure ProbeResult where
  width : ℤ
  height : ℤ
deriving DecidableEq

/-- The PiP-sizing computation of `VideoGenerator.process` (mlconf-dlp.py):
probe the first timeline segment's asset for its dimensions and set the target
PiP width to `int(slide_width * pip_scale)`; when probing fails, fall back to
the fixed default width `1920` (a logged warning, not an error).  `none` is
the `IndexError` an empty timeline would raise on `timeline[0]`. -/
def pipTargetWidth (probe : String → Option ProbeResult)
    (timeline : List Segment) (pipScale : ℚ) : Option ℤ :=
  match timeline with
  | [] => none
  | sg :: _ =>
    match probe sg.path with
    | some d => some (pyInt (d.width * pipScale))
    | none => some (pyInt (1920 * pipScale))

/-- Numeric value of a digit string, as Python `int`. -/
def digitsToNat (ds : List Char) : ℕ :=
  ds.foldl (fun acc c => 10 * acc + (c.toNat - '0'.toNat)) 0

/-- The three captured groups of the progress regex
`time=(\d+):(\d+):(\d+\.\d+)`, with group 3 split into its whole-second part
and its fractional digits. -/
structure ClockStamp where
  hours : ℕ
  minutes : ℕ
  wholeSeconds : ℕ
  frac : ℕ
  fracDigits : ℕ
deriving DecidableEq

/-- Attempt to match `(\d+):(\d+):(\d+\.\d+)` at the head of the character
list (the part of the progress regex after the literal `time=`).  The digit
runs are separated by non-digit literals, so the greedy `takeWhile` needs no
backtracking. -/
def matchClockAt (s : List Char) : Option ClockStamp :=
  let d1 := s.takeWhile isPyDigit
  if d1.isEmpty then none
  else
    match s.dropWhile isPyDigit with
    | ':' :: r2 =>
      let d2 := r2.takeWhile isPyDigit
      if d2.isEmpty then none
      else
        match r2.dropWhile isPyDigit with
        | ':' :: r4 =>
          let d3 := r4.takeWhile isPyDigit
          if d3.isEmpty then none
          else
            match r4.dropWhile isPyDigit with
            | '.' :: r6 =>
              let d4 := r6.takeWhile isPyDigit
              if d4.isEmpty then none
              else
                some ⟨digitsToNat d1, digitsToNat d2, digitsToNat d3,
                  digitsToNat d4, d4.length⟩
            | _ => none
        | _ => none
    | _ => none

/-- Match the full progress regex `time=(\d+):(\d+):(\d+\.\d+)` at the head
of the character list. -/
def matchTimeAt : List Char → Option ClockStamp
  | 't' :: 'i' :: 'm' :: 'e' :: '=' :: rest => matchClockAt rest
  | _ => none

/-- Leftmost match of the progress regex, as `re.search` over one line. -/
def searchTime : List Char → Option ClockStamp
  | [] => none
  | c :: cs =>
    match matchTimeAt (c :: cs) with
    | some q => some q
    | none => searchTime cs

/-- `current_time = hours * 3600 + minutes * 60 + seconds`, where `seconds`
is the value of the `\d+\.\d+` capture. -/
def clockValue (t : ClockStamp) : ℚ :=
  (t.hours : ℚ) * 3600 + (t.minutes : ℚ) * 60 + (t.wholeSeconds : ℚ)
    + (t.frac : ℚ) / (10 : ℚ) ^ t.fracDigits

/-- Extraction of the processed time from one encoder stderr line: the
`"time=" in line` guard followed by
`re.search(r"time=(\d+):(\d+):(\d+\.\d+)", line)`.  (The guard is subsumed by
the search: a line matching the regex necessarily contains `time=`.) -/
def parseTimeLine (line : String) : Option ℚ :=
  (searchTime line.data).map clockValue

/-- The successive values assigned to `pbar.n` by the stderr-reading loop of
`VideoGenerator.process` (silent mode): for each line matching the progress
regex, `pbar.n = min(current_time, total_duration)`. -/
def progressLoop (total : ℚ) : List String → List ℚ
  | [] => []
  | line :: rest =>
    match parseTimeLine line with
    | some t => min t total :: progressLoop total rest
    | none => progressLoop total rest

/-- All values assigned to `pbar.n` during one silent-mode render: the loop
assignments followed by the unconditional `pbar.n = total_duration` executed
after the loop ("ensure progress bar reaches 100% before closing"). -/
def reportedProgress (total : ℚ) (lines : List String) : List ℚ :=
  progressLoop total lines ++ [total]

/-- Exit-code classification after `process.wait()`: a non-zero return code
raises `ffmpeg.Error`, which the enclosing handler re-raises as the
`FFmpeg error during video generation` (RenderFailed) ValidationError;
a zero return code lets `process` report success with the output path. -/
def renderOutcome (exitCode : ℤ) (output : String) : Except String String :=
  if exitCode ≠ 0 then .error "FFmpeg error during video generation: ffmpeg"
  else .ok output

/-- Silent-mode render supervision of `VideoGenerator.process`, given the
encoder's stderr lines and exit code: the sequence of progress values shown,
the outcome, and the number of encoder launches — the code builds one command,
calls `subprocess.Popen` on it exactly once, and never loops back. -/
def superviseSilent (total : ℚ) (lines : List String) (exitCode : ℤ)
    (output : String) : List ℚ × Except String String × ℕ :=
  (reportedProgress total lines, renderOutcome exitCode output, 1)

/-! Concrete inputs used to exercise the model: the end-to-end scenario of
the specification (three chapters `Slide 001` … `Slide 003` at `[0,10]`,
`[10,10.05]`, `[10.05,30]`, all resolving to images). -/

/-- Image asset of the example scenario for one slide id. -/
def exampleAsset (sid : String) : SlideAsset :=
  ⟨"Talk [abc123]." ++ sid ++ ".png", SlideKind.image⟩

/-- The three chapters of the example scenario. -/
def exampleChapters : List Chapter :=
  [⟨0, 10, some "Slide 001"⟩, ⟨10, 201 / 20, some "Slide 002"⟩,
    ⟨201 / 20, 30, some "Slide 003"⟩]

/-- The resolved mapping of the example scenario. -/
def exampleMapping : SlideMap :=
  [("001", exampleAsset "001"), ("002", exampleAsset "002"),
    ("003", exampleAsset "003")]

/-- A probe reporting a 1915×1080 first slide (a width whose product with
scale `1/10` is not an integer). -/
def exampleProbe : String → Option ProbeResult :=
  fun _ => some ⟨1915, 1080⟩

/-- A one-segment timeline for the PiP computation. -/
def exampleSegment : Segment :=
  ⟨0, 10, "Talk [abc123].001.png", SlideKind.image⟩

/-- A noisy encoder stderr stream: the parsed times go 5s then 3s. -/
def noisyLines : List String :=
  ["frame=1 time=00:00:05.00 speed=1x", "frame=2 time=00:00:03.00 speed=1x"]

/-- The timeline the builder produces on the example scenario: three segments
in chapter order, the middle one clamped to `[10, 10.1]`, the outer two kept
verbatim. -/
def exampleSegments : List Segment :=
  [⟨0, 10, "Talk [abc123].001.png", SlideKind.image⟩,
    ⟨10, 101 / 10, "Talk [abc123].002.png", SlideKind.image⟩,
    ⟨201 / 20, 30, "Talk [abc123].003.png", SlideKind.image⟩]

/-! ### Helper lemmas -/

theorem resolveImageAlts_eq_find? (files : List String) (videoName sid : String) :
    ∀ alts : List String,
      resolveImageAlts files videoName sid alts
        = (alts.find? fun e => files.contains (imageFileName videoName sid e)).map
            (imageFileName videoName sid)
  | [] => rfl
  | e :: es => by
    simp only [resolveImageAlts, List.find?_cons]
    cases h : files.contains (imageFileName videoName sid e) <;>
      simp [h, resolveImageAlts_eq_find? files videoName sid es]

theorem imageFileName_ext_inj {videoName sid e1 e2 : String}
    (h : imageFileName videoName sid e1 = imageFileName videoName sid e2) :
    e1 = e2 := by
  have hd := congrArg String.data h
  simp only [imageFileName, String.data_append, List.append_assoc] at hd
  exact String.ext <| (List.append_right_inj _).mp <|
    (List.append_right_inj _).mp <| (List.append_right_inj _).mp <|
    (List.append_right_inj _).mp hd

theorem thumbs_any_iff_mem_ids {thumbs : List Thumbnail} {sid : String} :
    (thumbs.any fun t => t.id == sid) = true ↔ sid ∈ thumbs.map Thumbnail.id := by
  rw [List.any_eq_true]
  constructor
  · rintro ⟨t, ht, hp⟩
    exact List.mem_map.mpr ⟨t, ht, beq_iff_eq.mp hp⟩
  · intro hmem
    obtain ⟨t, ht, hid⟩ := List.mem_map.mp hmem
    exact ⟨t, ht, beq_iff_eq.mpr hid⟩

theorem find?_isSome_of_mem_ids {thumbs : List Thumbnail} {sid : String}
    (h : sid ∈ thumbs.map Thumbnail.id) :
    (thumbs.find? fun t => t.id == sid).isSome := by
  rw [List.find?_isSome]
  obtain ⟨t, ht, rfl⟩ := List.mem_map.mp h
  exact ⟨t, ht, by simp⟩

theorem slideStep_no_id {files : List String} {videoName : String}
    {thumbs : List Thumbnail} {st : ResolveState} {c : Chapter}
    (hex : extractSlideId (c.title.getD "") = none) :
    slideStep files videoName thumbs st c
      = .ok { st with skippedCount := st.skippedCount + 1 } := by
  simp [slideStep, hex]

theorem slideStep_image_found {files : List String} {videoName : String}
    {thumbs : List Thumbnail} {st : ResolveState} {c : Chapter}
    {sid p : String} {t : Thumbnail}
    (hex : extractSlideId (c.title.getD "") = some sid)
    (hany : (thumbs.any fun t => t.id == sid) = true)
    (hfind : (thumbs.find? fun t => t.id == sid) = some t)
    (hres : resolveImage files videoName sid (pathExt t.url) = some p) :
    slideStep files videoName thumbs st c
      = .ok { st with
              mapping := (sid, ⟨p, SlideKind.image⟩) :: st.mapping,
              imageCount := st.imageCount + 1 } := by
  simp [slideStep, hex, hany, hfind, hres]

theorem slideStep_image_missing {files : List String} {videoName : String}
    {thumbs : List Thumbnail} {st : ResolveState} {c : Chapter}
    {sid : String} {t : Thumbnail}
    (hex : extractSlideId (c.title.getD "") = some sid)
    (hany : (thumbs.any fun t => t.id == sid) = true)
    (hfind : (thumbs.find? fun t => t.id == sid) = some t)
    (hres : resolveImage files videoName sid (pathExt t.url) = none) :
    slideStep files videoName thumbs st c
      = .error ("Slide file not found for thumbnail " ++ sid
          ++ ". Expected: " ++ videoName ++ "." ++ sid ++ "."
          ++ pathExt t.url) := by
  simp [slideStep, hex, hany, hfind, hres]

theorem slideStep_video_found {files : List String} {videoName : String}
    {thumbs : List Thumbnail} {st : ResolveState} {c : Chapter}
    {sid v : String}
    (hex : extractSlideId (c.title.getD "") = some sid)
    (hany : (thumbs.any fun t => t.id == sid) = false)
    (hfind : (files.find? fun nm => slideVideoGlob sid nm) = some v) :
    slideStep files videoName thumbs st c
      = .ok { st with
              mapping := (sid, ⟨v, SlideKind.video⟩) :: st.mapping,
              videoCount := st.videoCount + 1 } := by
  simp [slideStep, hex, hany, hfind]

theorem slideStep_video_missing {files : List String} {videoName : String}
    {thumbs : List Thumbnail} {st : ResolveState} {c : Chapter}
    {sid : String}
    (hex : extractSlideId (c.title.getD "") = some sid)
    (hany : (thumbs.any fun t => t.id == sid) = false)
    (hfind : (files.find? fun nm => slideVideoGlob sid nm) = none) :
    slideStep files videoName thumbs st c
      = .ok { st with skippedCount := st.skippedCount + 1 } := by
  simp [slideStep, hex, hany, hfind]

theorem slideStep_ok_counts {files : List String} {videoName : String}
    {thumbs : List Thumbnail} {st st2 : ResolveState} {c : Chapter}
    (h : slideStep files videoName thumbs st c = .ok st2) :
    st2.imageCount + st2.videoCount + st2.skippedCount
      = st.imageCount + st.videoCount + st.skippedCount + 1 := by
  cases hex : extractSlideId (c.title.getD "") with
  | none =>
    rw [slideStep_no_id hex] at h
    cases h
    simp [Nat.add_assoc]
  | some sid =>
    cases hany : thumbs.any fun t => t.id == sid with
    | true =>
      cases hfind : thumbs.find? fun t => t.id == sid with
      | none =>
        have hs := find?_isSome_of_mem_ids (thumbs_any_iff_mem_ids.mp hany)
        rw [hfind] at hs
        cases hs
      | some t =>
        cases hres : resolveImage files videoName sid (pathExt t.url) with
        | none => rw [slideStep_image_missing hex hany hfind hres] at h; cases h
        | some p =>
          rw [slideStep_image_found hex hany hfind hres] at h
          cases h
          dsimp only
          omega
    | false =>
      cases hfind : files.find? fun nm => slideVideoGlob sid nm with
      | none =>
        rw [slideStep_video_missing hex hany hfind] at h
        cases h
        simp [Nat.add_assoc]

      | some v =>
        rw [slideStep_video_found hex hany hfind] at h
        cases h
        dsimp only
        omega

theorem slideLoop_ok_counts {files : List String} {videoName : String}
    {thumbs : List Thumbnail} :
    ∀ {cs : List Chapter} {st st2 : ResolveState},
      slideLoop files videoName thumbs st cs = .ok st2 →
      st2.imageCount + st2.videoCount + st2.skippedCount
        = st.imageCount + st.videoCount + st.skippedCount + cs.length := by
  intro cs
  induction cs with
  | nil =>
    intro st st2 h
    cases h
    simp
  | cons c cs ih =>
    intro st st2 h
    unfold slideLoop at h
    cases hstep : slideStep files videoName thumbs st c with
    | error e => rw [hstep] at h; cases h
    | ok stMid =>
      rw [hstep] at h
      have h1 := slideStep_ok_counts hstep
      have h2 := ih h
      rw [h2, h1, List.length_cons]
      omega

/-! ### C10: deterministic image-extension fallback -/

/-- C10.  Image-slide resolution is deterministic in its extension fallback:
the resolved file is `<videoBasename>.<id>.<declaredExt>` when that file
exists; otherwise it is the file for the first extension in the fixed order
`png, jpg, jpeg, webp` that exists; and `webp` is used as fallback only when
the `png`, `jpg` and `jpeg` candidates are all absent. -/
theorem image_extension_fallback (files : List String) (videoName sid ext : String) :
    (files.contains (imageFileName videoName sid ext) = true →
      resolveImage files videoName sid ext = some (imageFileName videoName sid ext))
    ∧ (files.contains (imageFileName videoName sid ext) = false →
      resolveImage files videoName sid ext
        = (List.find? (fun e => files.contains (imageFileName videoName sid e))
            ["png", "jpg", "jpeg", "webp"]).map (imageFileName videoName sid))
    ∧ (files.contains (imageFileName videoName sid ext) = false →
      resolveImage files videoName sid ext
          = some (imageFileName videoName sid "webp") →
      files.contains (imageFileName videoName sid "png") = false
        ∧ files.contains (imageFileName videoName sid "jpg") = false
        ∧ files.contains (imageFileName videoName sid "jpeg") = false) := by
  refine ⟨fun h => ?_, fun h => ?_, fun h hres => ?_⟩
  · simp only [resolveImage, h]
    exact if_pos trivial
  · simp only [resolveImage, h]
    rw [if_neg Bool.false_ne_true]
    exact resolveImageAlts_eq_find? files videoName sid _
  · rw [resolveImage] at hres
    rw [h, if_neg Bool.false_ne_true] at hres
    cases hpng : files.contains (imageFileName videoName sid "png") with
    | true =>
      exfalso
      simp only [resolveImageAlts, hpng, if_true, Option.some_inj] at hres
      exact absurd (imageFileName_ext_inj hres) (by decide)
    | false =>
      cases hjpg : files.contains (imageFileName videoName sid "jpg") with
      | true =>
        exfalso
        simp only [resolveImageAlts, hpng, hjpg, if_true, if_false,
          Bool.false_eq_true, Option.some_inj] at hres
        exact absurd (imageFileName_ext_inj hres) (by decide)
      | false =>
        cases hjpeg : files.contains (imageFileName videoName sid "jpeg") with
        | true =>
          exfalso
          simp only [resolveImageAlts, hpng, hjpg, hjpeg, if_true, if_false,
            Bool.false_eq_true, Option.some_inj] at hres
          exact absurd (imageFileName_ext_inj hres) (by decide)
        | false => exact ⟨rfl, rfl, rfl⟩

/-- Witness for `image_extension_fallback` at a concrete directory listing. -/
theorem image_extension_fallback_witness :
    resolveImage ["vid.001.jpeg"] "vid" "001" "png" = some "vid.001.jpeg" := by
  have h := (image_extension_fallback ["vid.001.jpeg"] "vid" "001" "png").2.1
    (by decide)
  rw [h]
  decide

/-! ### C9: counters partition the chapters -/

/-- C9.  Whenever slide-asset resolution returns successfully, every chapter
is counted in exactly one of the three reported counters:
`image_count + video_count + skipped_count` equals the number of chapters. -/
theorem resolve_counters_partition {files : List String}
    {chapters : List Chapter} {thumbs : List Thumbnail} {videoName : String}
    {st : ResolveState}
    (h : validateSlideFiles files chapters thumbs videoName = .ok st) :
    st.imageCount + st.videoCount + st.skippedCount = chapters.length := by
  have h2 : slideLoop files videoName thumbs ⟨[], 0, 0, 0⟩ chapters = .ok st := h
  have := slideLoop_ok_counts h2
  simpa using this

/-- Witness for `resolve_counters_partition`: one skipped chapter, one image
chapter. -/
theorem resolve_counters_partition_witness :
    ∃ st : ResolveState,
      validateSlideFiles ["vid.001.png"]
          [⟨0, 1, some "Intro"⟩, ⟨1, 2, some "Slide 001"⟩]
          [⟨"001", "https://x/a.001.png"⟩] "vid" = .ok st
        ∧ st.imageCount + st.videoCount + st.skippedCount = 2 := by
  refine ⟨⟨[("001", ⟨"vid.001.png", SlideKind.image⟩)], 1, 0, 1⟩, ?_, ?_⟩
  · rfl
  · exact @resolve_counters_partition ["vid.001.png"]
      [⟨0, 1, some "Intro"⟩, ⟨1, 2, some "Slide 001"⟩]
      [⟨"001", "https://x/a.001.png"⟩] "vid"
      ⟨[("001", ⟨"vid.001.png", SlideKind.image⟩)], 1, 0, 1⟩ rfl

/-! ### C1: chapter-priority slide-asset resolution policy -/

/-- C1.  Slide-asset resolution follows the chapter-priority policy: a chapter
whose title has no `Slide\s+(\d+)` match is skipped non-fatally; a chapter
whose extracted id is in the thumbnail id set resolves to an image (with
extension fallback) or fails fatally with the MissingSlideAsset error; a
chapter whose id is not in the thumbnail set takes the first `*Slide <id>*.mp4`
glob hit or is skipped non-fatally; and the loop processes chapters in order,
an error at one chapter aborting the traversal while a success continues it. -/
theorem slide_resolution_chapter_policy (files : List String)
    (videoName : String) (thumbs : List Thumbnail) :
    (∀ st c, extractSlideId (c.title.getD "") = none →
      slideStep files videoName thumbs st c
        = .ok { st with skippedCount := st.skippedCount + 1 })
    ∧ (∀ st c sid, extractSlideId (c.title.getD "") = some sid →
        sid ∈ thumbs.map Thumbnail.id →
        ∃ t, (thumbs.find? fun t => t.id == sid) = some t
          ∧ (resolveImage files videoName sid (pathExt t.url) = none →
              slideStep files videoName thumbs st c
                = .error ("Slide file not found for thumbnail " ++ sid
                    ++ ". Expected: " ++ videoName ++ "." ++ sid ++ "."
                    ++ pathExt t.url))
          ∧ ∀ p, resolveImage files videoName sid (pathExt t.url) = some p →
              slideStep files videoName thumbs st c
                = .ok { st with
                        mapping := (sid, ⟨p, SlideKind.image⟩) :: st.mapping,
                        imageCount := st.imageCount + 1 })
    ∧ (∀ st c sid, extractSlideId (c.title.getD "") = some sid →
        sid ∉ thumbs.map Thumbnail.id →
        ((files.find? fun nm => slideVideoGlob sid nm) = none →
            slideStep files videoName thumbs st c
              = .ok { st with skippedCount := st.skippedCount + 1 })
          ∧ ∀ v, (files.find? fun nm => slideVideoGlob sid nm) = some v →
            slideStep files videoName thumbs st c
              = .ok { st with
                      mapping := (sid, ⟨v, SlideKind.video⟩) :: st.mapping,
                      videoCount := st.videoCount + 1 })
    ∧ (∀ st c cs e, slideStep files videoName thumbs st c = .error e →
        slideLoop files videoName thumbs st (c :: cs) = .error e)
    ∧ (∀ st c cs st2, slideStep files videoName thumbs st c = .ok st2 →
        slideLoop files videoName thumbs st (c :: cs)
          = slideLoop files videoName thumbs st2 cs) := by
  refine ⟨fun st c hex => slideStep_no_id hex,
    fun st c sid hex hmem => ?_, fun st c sid hex hmem => ?_,
    fun st c cs e hstep => ?_, fun st c cs st2 hstep => ?_⟩
  · have hany := thumbs_any_iff_mem_ids.mpr hmem
    obtain ⟨t, hfind⟩ :=
      Option.isSome_iff_exists.mp (find?_isSome_of_mem_ids hmem)
    exact ⟨t, hfind, fun hres => slideStep_image_missing hex hany hfind hres,
      fun p hres => slideStep_image_found hex hany hfind hres⟩
  · have hany : (thumbs.any fun t => t.id == sid) = false := by
      cases hb : thumbs.any fun t => t.id == sid with
      | false => rfl
      | true => exact absurd (thumbs_any_iff_mem_ids.mp hb) hmem
    exact ⟨fun hfind => slideStep_video_missing hex hany hfind,
      fun v hfind => slideStep_video_found hex hany hfind⟩
  · simp only [slideLoop, hstep]
  · simp only [slideLoop, hstep]

/-- Witness for `slide_resolution_chapter_policy`: a thumbnail-declared slide
with no image on disk is fatal for the whole traversal. -/
theorem slide_resolution_chapter_policy_witness :
    slideLoop [] "vid" [⟨"001", "https://x/a.001.png"⟩] ⟨[], 0, 0, 0⟩
        [⟨0, 1, some "Slide 001"⟩, ⟨1, 2, some "Slide 002"⟩]
      = .error "Slide file not found for thumbnail 001. Expected: vid.001.png" := by
  have h := slide_resolution_chapter_policy [] "vid" [⟨"001", "https://x/a.001.png"⟩]
  obtain ⟨t, hfind, hmiss, -⟩ :=
    h.2.1 ⟨[], 0, 0, 0⟩ ⟨0, 1, some "Slide 001"⟩ "001" (by decide) (by decide)
  have ht : t = ⟨"001", "https://x/a.001.png"⟩ := by
    simp [List.find?] at hfind
    exact hfind.symm
  subst ht
  exact h.2.2.2.1 _ _ [⟨1, 2, some "Slide 002"⟩] _ (hmiss (by decide))

/-! ### Timeline helper lemmas -/

theorem buildLoop_eq_filterMap (m : SlideMap) :
    ∀ (cs : List Chapter) (i : ℕ),
      buildLoop m i cs
        = (List.enumFrom i cs).filterMap fun p => segOfChapter m p.1 p.2
  | [], _ => rfl
  | c :: cs, i => by
    simp only [buildLoop, List.enumFrom, List.filterMap_cons]
    cases h : segOfChapter m i c <;>
      simp [h, buildLoop_eq_filterMap m cs (i + 1)]

theorem segOfChapter_resolves {m : SlideMap} {i : ℕ} {c : Chapter}
    {sid : String} {a : SlideAsset}
    (hex : extractSlideId (c.title.getD ("Chapter " ++ toString (i + 1)))
      = some sid)
    (ha : lookupSlide m sid = some a) :
    segOfChapter m i c
      = some ⟨c.start_time,
          if c.end_time - c.start_time < 1 / 10 then c.start_time + 1 / 10
          else c.end_time,
          a.path, a.kind⟩ := by
  simp [segOfChapter, hex, ha]

theorem segOfChapter_some_shape {m : SlideMap} {i : ℕ} {c : Chapter}
    {sg : Segment} (h : segOfChapter m i c = some sg) :
    sg.start = c.start_time
    ∧ sg.stop = (if c.end_time - c.start_time < 1 / 10 then c.start_time + 1 / 10
        else c.end_time) := by
  simp only [segOfChapter] at h
  split at h
  · cases h
  · split at h
    · cases h
    · cases h
      exact ⟨rfl, rfl⟩

theorem buildLoop_getElem?_of_all_some {m : SlideMap} :
    ∀ (cs : List Chapter) (k i : ℕ),
      (∀ j c, cs[j]? = some c → (segOfChapter m (k + j) c).isSome) →
      (buildLoop m k cs)[i]? = cs[i]?.bind fun c => segOfChapter m (k + i) c
  | [], k, i, _ => by simp [buildLoop]
  | c :: cs, k, i, h => by
    have h0 : (segOfChapter m k c).isSome := by
      have := h 0 c (by simp)
      simpa using this
    obtain ⟨sg, hsg⟩ := Option.isSome_iff_exists.mp h0
    cases i with
    | zero =>
      simp [buildLoop, hsg]
    | succ i =>
      have hrest := buildLoop_getElem?_of_all_some cs (k + 1) i
        (fun j c2 hc2 => by
          have := h (j + 1) c2 (by simpa using hc2)
          have harith : k + (j + 1) = k + 1 + j := by omega
          rwa [harith] at this)
      simp only [buildLoop, hsg, List.getElem?_cons_succ]
      rw [hrest]
      have harith : k + 1 + i = k + (i + 1) := by omega
      rw [harith]

theorem segOfChapter_mem_buildLoop {m : SlideMap} {chapters : List Chapter}
    {i : ℕ} {c : Chapter} {sg : Segment}
    (hc : chapters[i]? = some c) (hs : segOfChapter m i c = some sg) :
    sg ∈ buildLoop m 0 chapters := by
  rw [buildLoop_eq_filterMap]
  refine List.mem_filterMap.mpr ⟨(i, c), ?_, hs⟩
  refine List.mem_iff_getElem?.mpr ⟨i, ?_⟩
  rw [List.getElem?_enumFrom]
  simp [hc]

/-! ### C2: sub-0.1s chapters are clamped -/

/-- C2.  Every chapter whose duration is below `0.1` seconds and which
resolves to a slide asset (its title parses to an id bound in the mapping)
yields a timeline segment whose end is exactly `start + 0.1`, the start kept
unchanged. -/
theorem timeline_clamps_short_chapters {m : SlideMap}
    {chapters : List Chapter} {i : ℕ} {c : Chapter} {sid : String}
    {a : SlideAsset}
    (hc : chapters[i]? = some c)
    (hshort : c.end_time - c.start_time < 1 / 10)
    (hex : extractSlideId (c.title.getD ("Chapter " ++ toString (i + 1)))
      = some sid)
    (ha : lookupSlide m sid = some a) :
    segOfChapter m i c
      = some ⟨c.start_time, c.start_time + 1 / 10, a.path, a.kind⟩
    ∧ (⟨c.start_time, c.start_time + 1 / 10, a.path, a.kind⟩ : Segment)
        ∈ buildLoop m 0 chapters := by
  have hseg := segOfChapter_resolves hex ha
  rw [if_pos hshort] at hseg
  exact ⟨hseg, segOfChapter_mem_buildLoop hc hseg⟩

/-- Witness for `timeline_clamps_short_chapters` on a 0.05s chapter. -/
theorem timeline_clamps_short_chapters_witness :
    (⟨0, 0 + 1 / 10, "p.png", SlideKind.image⟩ : Segment)
      ∈ buildLoop [("001", ⟨"p.png", SlideKind.image⟩)] 0
          [⟨0, 1 / 20, some "Slide 001"⟩] := by
  have h := @timeline_clamps_short_chapters
    [("001", ⟨"p.png", SlideKind.image⟩)] [⟨0, 1 / 20, some "Slide 001"⟩] 0
    ⟨0, 1 / 20, some "Slide 001"⟩ "001" ⟨"p.png", SlideKind.image⟩
    rfl (by norm_num) (by decide) (by decide)
  exact h.2

/-! ### C3: the builder is order-preserving -/

/-- C3.  The timeline builder is order-preserving: a successful build equals
the `filterMap` of the per-chapter segment function over the indexed chapter
list — chapters are visited in order and never resorted — and every emitted
segment carries the originating chapter's start time and its (possibly
clamped) end time. -/
theorem timeline_order_preserving {chapters : List Chapter} {m : SlideMap}
    {t : List Segment} (h : buildSlideTimeline chapters m = .ok t) :
    t = chapters.enum.filterMap (fun p => segOfChapter m p.1 p.2)
    ∧ (∀ sg ∈ t, ∃ i c, chapters[i]? = some c ∧ segOfChapter m i c = some sg
        ∧ sg.start = c.start_time
        ∧ sg.stop = (if c.end_time - c.start_time < 1 / 10
            then c.start_time + 1 / 10 else c.end_time))
    ∧ ((∀ i c, chapters[i]? = some c → (segOfChapter m i c).isSome) →
        ∀ i, t[i]? = chapters[i]?.bind fun c => segOfChapter m i c) := by
  have ht : t = buildLoop m 0 chapters := by
    simp only [buildSlideTimeline] at h
    split at h
    · cases h
    · cases h
      rfl
  have henum : t = chapters.enum.filterMap (fun p => segOfChapter m p.1 p.2) := by
    rw [ht, buildLoop_eq_filterMap]
    rfl
  refine ⟨henum, fun sg hsg => ?_, fun hall i => ?_⟩
  swap
  · rw [ht]
    have := buildLoop_getElem?_of_all_some chapters 0 i
      (fun j c hc => by simpa using hall j c hc)
    simpa using this
  rw [henum] at hsg
  obtain ⟨⟨i, c⟩, hmem, hs⟩ := List.mem_filterMap.mp hsg
  have hc : chapters[i]? = some c := by
    obtain ⟨j, hj⟩ := List.getElem?_of_mem hmem
    rw [List.enum_eq_enumFrom, List.getElem?_enumFrom] at hj
    cases hcj : chapters[j]? with
    | none => rw [hcj] at hj; cases hj
    | some c2 =>
      rw [hcj] at hj
      simp at hj
      rw [← hj.1, hcj, hj.2]
  have hshape := segOfChapter_some_shape hs
  exact ⟨i, c, hc, hs, hshape.1, hshape.2⟩

/-- Witness for `timeline_order_preserving` on a one-chapter build. -/
theorem timeline_order_preserving_witness :
    ∃ t : List Segment,
      buildSlideTimeline [⟨0, 1, some "Slide 001"⟩]
          [("001", ⟨"p.png", SlideKind.image⟩)] = .ok t
        ∧ t = ([⟨0, 1, some "Slide 001"⟩] : List Chapter).enum.filterMap
            (fun p => segOfChapter [("001", ⟨"p.png", SlideKind.image⟩)] p.1 p.2) := by
  have hseg : segOfChapter [("001", ⟨"p.png", SlideKind.image⟩)] 0
      ⟨0, 1, some "Slide 001"⟩ = some ⟨0, 1, "p.png", SlideKind.image⟩ := by
    have := @segOfChapter_resolves
      [("001", ⟨"p.png", SlideKind.image⟩)] 0 ⟨0, 1, some "Slide 001"⟩
      "001" ⟨"p.png", SlideKind.image⟩ (by decide) (by decide)
    rw [this, if_neg (by norm_num)]
  have hbuild : buildSlideTimeline [⟨0, 1, some "Slide 001"⟩]
      [("001", ⟨"p.png", SlideKind.image⟩)]
        = .ok [⟨0, 1, "p.png", SlideKind.image⟩] := by
    simp [buildSlideTimeline, buildLoop, hseg]
  refine ⟨[⟨0, 1, "p.png", SlideKind.image⟩], hbuild, ?_⟩
  exact (timeline_order_preserving hbuild).1

/-! ### C7: EmptyTimeline exactly when zero segments result -/

/-- C7.  Timeline building fails with the EmptyTimeline error exactly when
zero segments result — that is, when no chapter both parses to a slide id and
maps to a resolved asset — and otherwise returns a non-empty segment list. -/
theorem empty_timeline_iff (chapters : List Chapter) (m : SlideMap) :
    (buildSlideTimeline chapters m = .error "No chapters found to create timeline"
      ↔ buildLoop m 0 chapters = [])
    ∧ (buildLoop m 0 chapters = []
      ↔ ∀ p ∈ chapters.enum, segOfChapter m p.1 p.2 = none)
    ∧ ∀ t, buildSlideTimeline chapters m = .ok t → t ≠ [] := by
  refine ⟨⟨fun h => ?_, fun h => ?_⟩, ?_, fun t h => ?_⟩
  · simp only [buildSlideTimeline] at h
    split at h
    · exact List.isEmpty_iff.mp (by assumption)
    · cases h
  · simp only [buildSlideTimeline, h]
    rfl
  · rw [buildLoop_eq_filterMap, List.filterMap_eq_nil_iff]
    exact Iff.rfl
  · simp only [buildSlideTimeline] at h
    split at h
    · cases h
    · cases h
      intro hnil
      exact (by assumption : ¬ (buildLoop m 0 chapters).isEmpty = true)
        (by rw [hnil] at *; exact List.isEmpty_iff.mpr hnil)

/-- Witness for `empty_timeline_iff`: an unparseable single chapter yields
the EmptyTimeline error. -/
theorem empty_timeline_iff_witness :
    buildSlideTimeline [⟨0, 1, some "Intro"⟩] []
      = .error "No chapters found to create timeline" :=
  ((empty_timeline_iff [⟨0, 1, some "Intro"⟩] []).1).mpr rfl

/-! ### Evaluation of the example scenario -/

theorem exampleSeg1_eval (i : ℕ) :
    segOfChapter exampleMapping i ⟨0, 10, some "Slide 001"⟩
      = some ⟨0, 10, "Talk [abc123].001.png", SlideKind.image⟩ := by
  have hex : extractSlideId ((some "Slide 001").getD
      ("Chapter " ++ toString (i + 1))) = some "001" := by
    rw [Option.getD_some]
    decide
  have h := segOfChapter_resolves (m := exampleMapping) (i := i)
    (c := ⟨0, 10, some "Slide 001"⟩) (a := exampleAsset "001") hex (by decide)
  rw [h, if_neg (by norm_num)]
  rfl

theorem exampleSeg2_eval (i : ℕ) :
    segOfChapter exampleMapping i ⟨10, 201 / 20, some "Slide 002"⟩
      = some ⟨10, 101 / 10, "Talk [abc123].002.png", SlideKind.image⟩ := by
  have hex : extractSlideId ((some "Slide 002").getD
      ("Chapter " ++ toString (i + 1))) = some "002" := by
    rw [Option.getD_some]
    decide
  have h := segOfChapter_resolves (m := exampleMapping) (i := i)
    (c := ⟨10, 201 / 20, some "Slide 002"⟩) (a := exampleAsset "002") hex
    (by decide)
  rw [h, if_pos (by norm_num)]
  simp only [Option.some_inj, Segment.mk.injEq]
  exact ⟨trivial, by norm_num, by decide, rfl⟩

theorem exampleSeg3_eval (i : ℕ) :
    segOfChapter exampleMapping i ⟨201 / 20, 30, some "Slide 003"⟩
      = some ⟨201 / 20, 30, "Talk [abc123].003.png", SlideKind.image⟩ := by
  have hex : extractSlideId ((some "Slide 003").getD
      ("Chapter " ++ toString (i + 1))) = some "003" := by
    rw [Option.getD_some]
    decide
  have h := segOfChapter_resolves (m := exampleMapping) (i := i)
    (c := ⟨201 / 20, 30, some "Slide 003"⟩) (a := exampleAsset "003") hex
    (by decide)
  rw [h, if_neg (by norm_num)]
  rfl

theorem exampleTimeline_eval :
    buildSlideTimeline exampleChapters exampleMapping = .ok exampleSegments := by
  simp only [buildSlideTimeline, exampleChapters, buildLoop,
    exampleSeg1_eval, exampleSeg2_eval, exampleSeg3_eval]
  rfl

/-! ### C4: total duration and absence of clamp cascade -/

/-- C4, counterexample to the claimed middle segment: on the example
chapters, the middle segment is clamped to `[10, 10.1]`, not `[10, 10.15]`. -/
theorem example_clamp_counterexample :
    buildSlideTimeline exampleChapters exampleMapping = .ok exampleSegments
    ∧ exampleSegments[1]?
        = some ⟨10, 101 / 10, "Talk [abc123].002.png", SlideKind.image⟩
    ∧ (101 / 10 : ℚ) ≠ 203 / 20 :=
  ⟨exampleTimeline_eval, rfl, by norm_num⟩

/-- C4 as amended.  For every non-empty timeline the composition duration is
the end of the last segment, and on the three-chapter example the middle
segment is clamped to `[10, 10.1]` while neither neighbour shifts (no
cascade), so the total duration is `30`. -/
theorem total_duration_last_segment :
    (∀ (tl : List Segment) (sg : Segment), tl.getLast? = some sg →
      totalDuration tl = sg.stop)
    ∧ buildSlideTimeline exampleChapters exampleMapping = .ok exampleSegments
    ∧ totalDuration exampleSegments = 30
    ∧ exampleSegments.map Segment.start = [0, 10, 201 / 20]
    ∧ exampleSegments.map Segment.stop = [10, 101 / 10, 30] := by
  refine ⟨fun tl sg h => ?_, exampleTimeline_eval, rfl, rfl, rfl⟩
  simp [totalDuration, h]

/-- Witness for `total_duration_last_segment` at the example timeline. -/
theorem total_duration_last_segment_witness :
    totalDuration exampleSegments
      = (⟨201 / 20, 30, "Talk [abc123].003.png", SlideKind.image⟩ : Segment).stop :=
  total_duration_last_segment.1 exampleSegments _ rfl

/-! ### C5: PiP width uses truncation, not rounding -/

/-- C5, counterexample to `round`: with a probed width of 1915 and scale
`0.1`, the code computes `int(191.5) = 191`, while rounding gives `192`. -/
theorem pip_width_round_counterexample :
    pipTargetWidth exampleProbe [exampleSegment] (1 / 10) = some 191
    ∧ round ((1915 : ℚ) * (1 / 10)) = 192
    ∧ (191 : ℤ) ≠ 192 := by
  refine ⟨?_, ?_, by decide⟩
  · simp only [pipTargetWidth, exampleProbe]
    norm_num [pyInt]
  · rw [round_eq]
    norm_num

/-- C5 as amended.  The PiP target width is `int(primaryWidth * pipScale)` —
Python truncation toward zero, which on the nonnegative operands in play is
the floor — where the primary width is probed from the first timeline
segment's asset, with the fixed default 1920 substituted non-fatally when the
probe fails. -/
theorem pip_width_truncation (probe : String → Option ProbeResult)
    (sg : Segment) (rest : List Segment) (scale : ℚ) :
    (∀ d, probe sg.path = some d →
      pipTargetWidth probe (sg :: rest) scale = some (pyInt (d.width * scale)))
    ∧ (probe sg.path = none →
      pipTargetWidth probe (sg :: rest) scale = some (pyInt (1920 * scale)))
    ∧ ∀ q : ℚ, 0 ≤ q → pyInt q = ⌊q⌋ := by
  refine ⟨fun d hd => ?_, fun hd => ?_, fun q hq => ?_⟩
  · simp [pipTargetWidth, hd]
  · simp [pipTargetWidth, hd]
  · simp [pyInt, hq]

/-- Witness for `pip_width_truncation` at the example probe. -/
theorem pip_width_truncation_witness :
    pipTargetWidth exampleProbe [exampleSegment] (1 / 2)
      = some (pyInt ((1915 : ℤ) * (1 / 2 : ℚ))) := by
  exact (pip_width_truncation exampleProbe exampleSegment [] (1 / 2)).1
    ⟨1915, 1080⟩ rfl

/-! ### C6: progress is clamped but not monotone on noisy streams -/

theorem progressLoop_eq_map (total : ℚ) :
    ∀ lines : List String,
      progressLoop total lines
        = (lines.filterMap parseTimeLine).map fun t => min t total
  | [] => rfl
  | line :: rest => by
    simp only [progressLoop, List.filterMap_cons]
    cases h : parseTimeLine line <;>
      simp [h, progressLoop_eq_map total rest]

theorem parse_noisy_five :
    parseTimeLine "frame=1 time=00:00:05.00 speed=1x" = some 5 := by
  have h : searchTime "frame=1 time=00:00:05.00 speed=1x".data
      = some ⟨0, 0, 5, 0, 2⟩ := by decide
  rw [parseTimeLine, h]
  norm_num [clockValue]

theorem parse_noisy_three :
    parseTimeLine "frame=2 time=00:00:03.00 speed=1x" = some 3 := by
  have h : searchTime "frame=2 time=00:00:03.00 speed=1x".data
      = some ⟨0, 0, 3, 0, 2⟩ := by decide
  rw [parseTimeLine, h]
  norm_num [clockValue]

/-- C6, counterexample to monotonicity: on a noisy stream whose parsed times
go 5s then 3s, the successively reported values are `[5, 3, 30]`, which
decrease between the first two observations. -/
theorem progress_monotone_counterexample :
    reportedProgress 30 noisyLines = [5, 3, 30] ∧ ¬ ((5 : ℚ) ≤ 3) := by
  refine ⟨?_, by norm_num⟩
  simp only [reportedProgress, noisyLines, progressLoop,
    parse_noisy_five, parse_noisy_three]
  norm_num [min_def]

/-- C6 as amended.  In silent mode every reported progress value is clamped
to at most the plan's total duration, and the final reported state is the
full duration (100%) before completion; the reported sequence is monotone
whenever the times parsed from the stream are themselves non-decreasing, but
the code takes no maximum with the previous value, so a noisy stream may make
it decrease. -/
theorem progress_clamped_and_final (total : ℚ) (lines : List String) :
    (∀ v ∈ reportedProgress total lines, v ≤ total)
    ∧ (reportedProgress total lines).getLast? = some total
    ∧ (List.Chain' (· ≤ ·) (lines.filterMap parseTimeLine) →
        List.Chain' (· ≤ ·) (reportedProgress total lines)) := by
  refine ⟨fun v hv => ?_, ?_, fun hchain => ?_⟩
  · rw [reportedProgress, progressLoop_eq_map] at hv
    rcases List.mem_append.mp hv with h1 | h2
    · obtain ⟨t, -, rfl⟩ := List.mem_map.mp h1
      exact min_le_right t total
    · rw [List.mem_singleton.mp h2]
  · rw [reportedProgress]
    exact List.getLast?_concat _
  · rw [reportedProgress, progressLoop_eq_map]
    refine List.chain'_append.mpr ⟨?_, List.chain'_singleton total, ?_⟩
    · exact (List.chain'_map _).mpr
        (hchain.imp fun a b hab => min_le_min hab (le_refl total))
    · intro x hx y hy
      have hx' := List.mem_of_getLast?_eq_some (Option.mem_def.mp hx)
      obtain ⟨t, -, rfl⟩ := List.mem_map.mp hx'
      have hy' : y = total := by
        have := hy
        simp only [List.head?_cons, Option.mem_def, Option.some_inj] at this
        exact this.symm
      rw [hy']
      exact min_le_right t total

/-- Witness for `progress_clamped_and_final` on a one-line stream. -/
theorem progress_clamped_and_final_witness :
    (∀ v ∈ reportedProgress 30 ["frame=1 time=00:00:05.00 speed=1x"], v ≤ 30)
    ∧ List.Chain' (· ≤ ·)
        (reportedProgress 30 ["frame=1 time=00:00:05.00 speed=1x"]) := by
  have h := progress_clamped_and_final 30 ["frame=1 time=00:00:05.00 speed=1x"]
  refine ⟨h.1, h.2.2 ?_⟩
  simp only [List.filterMap_cons, parse_noisy_five, List.filterMap_nil]
  exact List.chain'_singleton 5

/-! ### C8: non-zero encoder exit is RenderFailed, with no retry -/

/-- C8.  When the external encoder exits non-zero the supervisor raises the
RenderFailed error (never returning success), a zero exit reports success
with the output path, the outcome is always exactly one of the two, and the
encoder is launched exactly once — no retry. -/
theorem render_failed_no_retry (total : ℚ) (lines : List String)
    (exitCode : ℤ) (output : String) :
    ((superviseSilent total lines exitCode output).2.2 = 1)
    ∧ (exitCode ≠ 0 →
        (superviseSilent total lines exitCode output).2.1
          = .error "FFmpeg error during video generation: ffmpeg")
    ∧ (exitCode = 0 →
        (superviseSilent total lines exitCode output).2.1 = .ok output)
    ∧ ((superviseSilent total lines exitCode output).2.1
          = .error "FFmpeg error during video generation: ffmpeg"
        ∨ (superviseSilent total lines exitCode output).2.1 = .ok output) := by
  refine ⟨rfl, fun h => ?_, fun h => ?_, ?_⟩
  · simp [superviseSilent, renderOutcome, h]
  · simp [superviseSilent, renderOutcome, h]
  · by_cases h : exitCode = 0 <;> simp [superviseSilent, renderOutcome, h]

/-- Witness for `render_failed_no_retry` at exit code 1. -/
theorem render_failed_no_retry_witness :
    (superviseSilent 30 [] 1 "out.mp4").2.1
      = .error "FFmpeg error during video generation: ffmpeg" :=
  (render_failed_no_retry 30 [] 1 "out.mp4").2.1 (by decide)

end MlconfDlp
